import Mathlib

/-!
Verification development for the DigitalOcean Cluster API infrastructure
provider.  The first part embeds the e2e resource generators
(`test/e2e/resource_generator.go`) as pure Lean functions.  The second part
models the Cluster/Machine reconciliation state machine; the reconciler
bodies themselves are not part of the visible source excerpt (only CRD
types and e2e orchestration survive), so those definitions are modelled
from the specification text, as marked in their doc comments.
-/

/- ## Part 1: the e2e resource generators (translated from
   `src/test/e2e/resource_generator.go`). -/

/-- Kubernetes object metadata: namespace, name and labels.  Labels are an
association list (Go `map[string]string` in literal insertion order). -/
structure ObjectMeta where
  nsp : String
  name : String
  labels : List (String × String) := []
deriving DecidableEq

/-- Kubernetes `corev1.ObjectReference` restricted to the fields the
generators populate. -/
structure ObjectReference where
  apiVersion : String
  kind : String
  nsp : String
  name : String
deriving DecidableEq

/-- `intstr.IntOrString`. -/
inductive IntOrString where
  | int (n : Int)
  | str (s : String)
deriving DecidableEq

/-- `intstr.Parse`: try to parse the string as an integer, fall back to a
string value (Go `strconv.Atoi` semantics for decimal integers). -/
def IntOrString.parse (s : String) : IntOrString :=
  match s.toInt? with
  | some n => .int n
  | none => .str s

/-- `kubeadmv1beta1.NodeRegistrationOptions` restricted to the fields the
generator populates. -/
structure NodeRegistrationOptions where
  name : String
  kubeletExtraArgs : List (String × String)
deriving DecidableEq

/-- `kubeadmv1beta1.InitConfiguration` (node-registration only). -/
structure InitConfiguration where
  nodeRegistration : NodeRegistrationOptions
deriving DecidableEq

/-- `kubeadmv1beta1.JoinConfiguration` (node-registration only). -/
structure JoinConfiguration where
  nodeRegistration : NodeRegistrationOptions
deriving DecidableEq

/-- `bootstrapkubeadmv1.KubeadmConfigSpec`. -/
structure KubeadmConfigSpec where
  initConfiguration : Option InitConfiguration
  joinConfiguration : Option JoinConfiguration
deriving DecidableEq

/-- `bootstrapkubeadmv1.KubeadmConfig`. -/
structure KubeadmConfig where
  metadata : ObjectMeta
  spec : KubeadmConfigSpec
deriving DecidableEq

/-- `infrav1.DOMachineSpec`. -/
structure DOMachineSpec where
  size : String
  image : IntOrString
  sshKeys : List IntOrString
  additionalTags : List String
deriving DecidableEq

/-- `infrav1.DOMachine`. -/
structure DOMachine where
  metadata : ObjectMeta
  spec : DOMachineSpec
deriving DecidableEq

/-- `infrav1.DOClusterSpec` (the generator only sets `Region`). -/
structure DOClusterSpec where
  region : String
deriving DecidableEq

/-- `infrav1.DOCluster`. -/
structure DOCluster where
  metadata : ObjectMeta
  spec : DOClusterSpec
deriving DecidableEq

/-- `clusterv1.Bootstrap` (config reference only). -/
structure Bootstrap where
  configRef : Option ObjectReference
deriving DecidableEq

/-- `clusterv1.MachineSpec` restricted to the fields the generator
populates. -/
structure MachineSpec where
  bootstrap : Bootstrap
  infrastructureRef : ObjectReference
  version : Option String
deriving DecidableEq

/-- `clusterv1.Machine`. -/
structure Machine where
  metadata : ObjectMeta
  spec : MachineSpec
deriving DecidableEq

/-- `clusterv1.ClusterSpec` restricted to the fields the generator
populates (the cluster network is left at its zero value). -/
structure ClusterSpec where
  infrastructureRef : Option ObjectReference
deriving DecidableEq

/-- `clusterv1.Cluster`. -/
structure Cluster where
  metadata : ObjectMeta
  spec : ClusterSpec
deriving DecidableEq

/-- `clusterv1.MachineClusterLabelName`. -/
def MachineClusterLabelName : String := "cluster.x-k8s.io/cluster-name"

/-- `clusterv1.MachineControlPlaneLabelName`. -/
def MachineControlPlaneLabelName : String := "cluster.x-k8s.io/control-plane"

/-- `infrav1.GroupVersion.String()`. -/
def infraGroupVersion : String := "infrastructure.cluster.x-k8s.io/v1alpha2"

/-- `bootstrapkubeadmv1.GroupVersion.String()`. -/
def bootstrapGroupVersion : String := "bootstrap.cluster.x-k8s.io/v1alpha2"

/-- Label lookup in an association list (first binding wins, as in a Go
map where each key is written once). -/
def lookupLabel (labels : List (String × String)) (key : String) : Option String :=
  (labels.find? (fun p => p.1 == key)).map (·.2)

/-- `labels.Merge`: union of two label maps, with the second overriding the
first on common keys. -/
def mergeLabels (a b : List (String × String)) : List (String × String) :=
  a.filter (fun p => !(b.any (fun q => q.1 == p.1))) ++ b

/-- `ClusterGenerator.Generate`: builds a `Cluster` and a `DOCluster` for
the given namespace and name, wiring the cluster's infrastructure
reference to the `DOCluster` and fixing the region to `"nyc1"`. -/
def ClusterGenerator.Generate (clusterNamespace clusterName : String) :
    Cluster × DOCluster :=
  let clusterRegion := "nyc1"
  let docluster : DOCluster :=
    { metadata := { nsp := clusterNamespace, name := clusterName }
      spec := { region := clusterRegion } }
  let cluster : Cluster :=
    { metadata := { nsp := clusterNamespace, name := clusterName }
      spec :=
        { infrastructureRef := some
            { apiVersion := infraGroupVersion
              kind := "DOCluster"
              nsp := docluster.metadata.nsp
              name := docluster.metadata.name } } }
  (cluster, docluster)

/-- The cloud-init template for the node name (`local_hostname` metadata
interpolated at boot). -/
def localHostnameTemplate : String :=
  "\x7b\x7b ds.meta_data[\"local_hostname\"] \x7d\x7d"

/-- The cloud-init template for the kubelet provider id
(`digitalocean://` followed by the interpolated instance id). -/
def providerIDTemplate : String :=
  "digitalocean://\x7b\x7b ds.meta_data[\"instance_id\"] \x7d\x7d"

/-- `MachineGenerator.Generate`: builds a `Machine`, a `KubeadmConfig` and
a `DOMachine` sharing one generated name.  The non-deterministic inputs of
the Go function (the two `util.RandomString(6)` draws) and its flag-borne
globals (`kubernetesVersion`, `machineSize`, `machineImage`,
`machineSSHKey`) are passed as explicit parameters. -/
def MachineGenerator.Generate (nsp clusterName : String) (isControlPlane : Bool)
    (rand1 rand2 kubernetesVersion machineSize machineImage machineSSHKey : String) :
    Machine × KubeadmConfig × DOMachine :=
  let name :=
    if isControlPlane then clusterName ++ "-controlplane-" ++ rand2
    else clusterName ++ "-node-" ++ rand1
  let nodeRegistration : NodeRegistrationOptions :=
    { name := localHostnameTemplate
      kubeletExtraArgs :=
        [("cloud-provider", "external"), ("provider-id", providerIDTemplate)] }
  let kubeadmconfig : KubeadmConfig :=
    { metadata := { nsp := nsp, name := name }
      spec :=
        { initConfiguration := some { nodeRegistration := nodeRegistration }
          joinConfiguration := some { nodeRegistration := nodeRegistration } } }
  let domachine : DOMachine :=
    { metadata := { nsp := nsp, name := name }
      spec :=
        { size := machineSize
          image := IntOrString.parse machineImage
          sshKeys := [IntOrString.parse machineSSHKey]
          additionalTags := ["e2e-test"] } }
  let baseLabels := [(MachineClusterLabelName, clusterName)]
  let machine : Machine :=
    { metadata :=
        { nsp := nsp
          name := name
          labels :=
            if isControlPlane then
              mergeLabels baseLabels [(MachineControlPlaneLabelName, "true")]
            else baseLabels }
      spec :=
        { bootstrap :=
            { configRef := some
                { apiVersion := bootstrapGroupVersion
                  kind := "KubeadmConfig"
                  nsp := kubeadmconfig.metadata.nsp
                  name := kubeadmconfig.metadata.name } }
          infrastructureRef :=
            { apiVersion := infraGroupVersion
              kind := "DOMachine"
              nsp := domachine.metadata.nsp
              name := domachine.metadata.name }
          version := some kubernetesVersion } }
  (machine, kubeadmconfig, domachine)

/- ## Part 2: the reconciliation state machine.

The actual Cluster/Machine reconciler bodies are not present in the
visible source excerpt (only CRD types and the e2e call sequence
survive), so this whole part is modelled from the specification's
component design (sections 3, 4.1, 4.2, 4.3). -/

namespace Model

/-- Modelled from the spec: the control-plane endpoint
`{host, port}` stored in InfraCluster status (spec section 3);
the reconciler body that writes it is missing from the source. -/
structure Endpoint where
  host : String
  port : Nat
deriving DecidableEq

/-- Modelled from the spec: the generic Machine's observed status
(`bootstrapDataReady`, `infrastructureReady`, `nodeRef`, spec section 3);
the controllers writing it are missing from the source. -/
structure MachineStatus where
  bootstrapDataReady : Bool
  infrastructureReady : Bool
  nodeRef : Option String
deriving DecidableEq

/-- Modelled from the spec: the generic Machine object as read by the
Machine Reconciler (spec section 3), whose body is missing from the
source.  `isControlPlane` stands for the control-plane label. -/
structure Machine where
  name : String
  nsp : String
  clusterName : String
  isControlPlane : Bool
  status : MachineStatus
deriving DecidableEq

/-- Modelled from the spec: InfraMachine spec fields (spec section 3);
the reconciler consuming them is missing from the source. -/
structure InfraMachineSpec where
  size : String
  image : String
  sshKeys : List String
  additionalTags : List String
deriving DecidableEq

/-- Modelled from the spec: InfraMachine status
(`ready`, `instanceID`, `addresses`, spec section 3). -/
structure InfraMachineStatus where
  ready : Bool
  instanceID : Option Nat
  addresses : List String
deriving DecidableEq

/-- Modelled from the spec: the InfraMachine object (spec section 3) with
its finalizer and deletion-timestamp markers; the Machine Reconciler
operating on it is missing from the source. -/
structure InfraMachine where
  name : String
  nsp : String
  clusterName : String
  isControlPlane : Bool
  spec : InfraMachineSpec
  status : InfraMachineStatus
  finalizer : Bool
  deletionTimestamp : Bool
deriving DecidableEq

/-- Modelled from the spec: InfraCluster status
(`ready`, `controlPlaneEndpoint`, `loadBalancerID`, spec section 3). -/
structure InfraClusterStatus where
  ready : Bool
  controlPlaneEndpoint : Option Endpoint
  loadBalancerID : Option Nat
deriving DecidableEq

/-- Modelled from the spec: the InfraCluster object (spec section 3) with
its finalizer and deletion-timestamp markers; the Cluster Reconciler
operating on it is missing from the source. -/
structure InfraCluster where
  name : String
  nsp : String
  region : String
  status : InfraClusterStatus
  finalizer : Bool
  deletionTimestamp : Bool
deriving DecidableEq

/-- Modelled from the spec: a cloud compute instance as surfaced by the
Cloud Provisioning Adapter (spec section 4.3): name, provider-assigned id,
power state and public address. -/
structure Droplet where
  name : String
  id : Nat
  running : Bool
  publicIP : String
deriving DecidableEq

/-- Modelled from the spec: a cloud load balancer as surfaced by the Cloud
Provisioning Adapter (spec section 4.3): name, provider-assigned id,
external IP once provisioned, and the registered-instance set. -/
structure LoadBalancer where
  name : String
  id : Nat
  ip : Option String
  members : List Nat
deriving DecidableEq

/-- Modelled from the spec: the cloud provider's state behind the Cloud
Provisioning Adapter (spec section 4.3).  `nextID` generates fresh
provider-assigned ids. -/
structure CloudState where
  droplets : List Droplet
  loadBalancers : List LoadBalancer
  nextID : Nat
deriving DecidableEq

/-- Observable actions of one reconcile pass: the cloud adapter calls, in
order, plus the finalizer-removal write (needed to state deletion
ordering). -/
inductive Event where
  | findInstance (name : String)
  | createInstance (name : String)
  | deleteInstance (id : Nat)
  | findLoadBalancer (name : String)
  | createLoadBalancer (name : String)
  | deleteLoadBalancer (id : Nat)
  | registerInstance (lbID instID : Nat)
  | deregisterInstance (lbID instID : Nat)
  | removeFinalizer
deriving DecidableEq

/-- Lookup (read-only) adapter calls: `FindInstance` / `FindLoadBalancer`. -/
def Event.isLookup : Event → Bool
  | .findInstance _ => true
  | .findLoadBalancer _ => true
  | _ => false

/-- Result classification of a delete adapter call: the resource was
deleted, or it was already gone (`not-found`). -/
inductive DeleteResult where
  | deleted
  | notFound
deriving DecidableEq

/-- Result classification of a register adapter call. -/
inductive RegisterResult where
  | ok
  | lbNotFound
deriving DecidableEq

/-- Outcome of one reconcile pass: converged, requeue-and-retry, or a
surfaced error. -/
inductive Outcome where
  | done
  | requeue
  | errorOut
deriving DecidableEq

/-- Modelled from the spec: `FindInstance(name)` (spec section 4.3). -/
def findInstance (c : CloudState) (name : String) : Option Droplet :=
  c.droplets.find? (fun d => d.name == name)

/-- Modelled from the spec: `CreateInstance(spec)` (spec section 4.3) —
provisions a new, not-yet-running instance under the given deterministic
name and returns it with a fresh provider id. -/
def createInstance (c : CloudState) (name : String) : Droplet × CloudState :=
  let d : Droplet := { name := name, id := c.nextID, running := false, publicIP := "" }
  (d, { c with droplets := c.droplets ++ [d], nextID := c.nextID + 1 })

/-- Modelled from the spec: `DeleteInstance(id)` (spec section 4.3), with
the not-found case classified rather than hidden. -/
def deleteInstance (c : CloudState) (id : Nat) : DeleteResult × CloudState :=
  if c.droplets.any (fun d => d.id == id) then
    (.deleted, { c with droplets := c.droplets.filter (fun d => d.id != id) })
  else (.notFound, c)

/-- Modelled from the spec: `FindLoadBalancer(name)` (spec section 4.3). -/
def findLoadBalancer (c : CloudState) (name : String) : Option LoadBalancer :=
  c.loadBalancers.find? (fun lb => lb.name == name)

/-- Modelled from the spec: `CreateLoadBalancer(spec)` (spec section 4.3)
— provisions a load balancer (no external IP yet) under the given
deterministic name and returns it with a fresh provider id. -/
def createLoadBalancer (c : CloudState) (name : String) : LoadBalancer × CloudState :=
  let lb : LoadBalancer := { name := name, id := c.nextID, ip := none, members := [] }
  (lb, { c with loadBalancers := c.loadBalancers ++ [lb], nextID := c.nextID + 1 })

/-- Modelled from the spec: `DeleteLoadBalancer(id)` (spec section 4.3),
with the not-found case classified rather than hidden. -/
def deleteLoadBalancer (c : CloudState) (id : Nat) : DeleteResult × CloudState :=
  if c.loadBalancers.any (fun lb => lb.id == id) then
    (.deleted, { c with loadBalancers := c.loadBalancers.filter (fun lb => lb.id != id) })
  else (.notFound, c)

/-- Modelled from the spec: `RegisterWithLoadBalancer(lbID, instanceID)`
(spec section 4.3) — idempotent: "already registered" is success. -/
def registerWithLoadBalancer (c : CloudState) (lbID instID : Nat) :
    RegisterResult × CloudState :=
  if c.loadBalancers.any (fun lb => lb.id == lbID) then
    (.ok,
      { c with
          loadBalancers := c.loadBalancers.map (fun lb =>
            if lb.id == lbID then
              { lb with members := if instID ∈ lb.members then lb.members else lb.members ++ [instID] }
            else lb) })
  else (.lbNotFound, c)

/-- Modelled from the spec: `DeregisterFromLoadBalancer(lbID, instanceID)`
(spec section 4.3) — an idempotent no-op when already deregistered or the
load balancer is already gone. -/
def deregisterFromLoadBalancer (c : CloudState) (lbID instID : Nat) : CloudState :=
  { c with
      loadBalancers := c.loadBalancers.map (fun lb =>
        if lb.id == lbID then { lb with members := lb.members.filter (fun x => x != instID) }
        else lb) }

/-- Result of one Machine Reconciler pass: the written-back InfraMachine,
the resulting cloud state, the ordered trace of observable actions, and
the pass outcome. -/
structure MachineReconcileResult where
  infraMachine : InfraMachine
  cloud : CloudState
  trace : List Event
  outcome : Outcome
deriving DecidableEq

/-- Result of one Cluster Reconciler pass. -/
structure ClusterReconcileResult where
  infraCluster : InfraCluster
  cloud : CloudState
  trace : List Event
  outcome : Outcome
deriving DecidableEq

/-- Modelled from the spec: the deletion path of the Machine Reconciler
(spec section 4.2), whose body is missing from the source: deregister
from the load balancer first when the machine is a control-plane member
(no-op when the load balancer or registration is already gone), then
delete the instance recorded in status (not-found is success), then
remove the finalizer. -/
def reconcileMachineDelete (ic : InfraCluster) (im : InfraMachine)
    (cloud : CloudState) : MachineReconcileResult :=
  let (tr1, cloud1) :=
    match im.isControlPlane, ic.status.loadBalancerID, im.status.instanceID with
    | true, some lbID, some instID =>
        ([Event.deregisterInstance lbID instID], deregisterFromLoadBalancer cloud lbID instID)
    | _, _, _ => ([], cloud)
  let (tr2, cloud2) :=
    match im.status.instanceID with
    | some instID => ([Event.deleteInstance instID], (deleteInstance cloud1 instID).2)
    | none => ([], cloud1)
  { infraMachine := { im with finalizer := false }
    cloud := cloud2
    trace := tr1 ++ tr2 ++ [Event.removeFinalizer]
    outcome := .done }

/-- Modelled from the spec: the provisioning path of the Machine
Reconciler (spec section 4.2), whose body is missing from the source,
reached once both readiness gates passed: find-or-create the instance
under the deterministic name (= the machine name), recording the returned
instance id in status immediately after a create; poll while the instance
is not running; once running, register a control-plane member with the
cluster's load balancer and only after successful registration set
`status.ready` and `status.addresses`. -/
def reconcileMachineProvision (ic : InfraCluster) (im : InfraMachine)
    (cloud : CloudState) : MachineReconcileResult :=
  match findInstance cloud im.name with
  | none =>
      let (d, cloud1) := createInstance cloud im.name
      { infraMachine := { im with status := { im.status with instanceID := some d.id } }
        cloud := cloud1
        trace := [Event.findInstance im.name, Event.createInstance im.name]
        outcome := .requeue }
  | some d =>
      let im1 : InfraMachine := { im with status := { im.status with instanceID := some d.id } }
      if !d.running then
        { infraMachine := im1, cloud := cloud
          trace := [Event.findInstance im.name], outcome := .requeue }
      else if im.isControlPlane then
        match ic.status.loadBalancerID with
        | none =>
            { infraMachine := im1, cloud := cloud
              trace := [Event.findInstance im.name], outcome := .requeue }
        | some lbID =>
            let (r, cloud1) := registerWithLoadBalancer cloud lbID d.id
            match r with
            | .ok =>
                { infraMachine :=
                    { im1 with status :=
                        { im1.status with ready := true, addresses := [d.publicIP] } }
                  cloud := cloud1
                  trace := [Event.findInstance im.name, Event.registerInstance lbID d.id]
                  outcome := .done }
            | .lbNotFound =>
                { infraMachine := im1, cloud := cloud1
                  trace := [Event.findInstance im.name, Event.registerInstance lbID d.id]
                  outcome := .requeue }
      else
        { infraMachine :=
            { im1 with status := { im1.status with ready := true, addresses := [d.publicIP] } }
          cloud := cloud
          trace := [Event.findInstance im.name]
          outcome := .done }

/-- Modelled from the spec: one Machine Reconciler pass (spec section
4.2), whose body is missing from the source.  Order of checks: deletion
timestamp; ensure the finalizer (write, then requeue); Gate 1 — the
owning Machine's `bootstrapDataReady`; Gate 2 — the owning InfraCluster's
`ready`; then, if already `ready`, a drift-check lookup only, else the
provisioning path. -/
def reconcileMachine (m : Machine) (ic : InfraCluster) (im : InfraMachine)
    (cloud : CloudState) : MachineReconcileResult :=
  if im.deletionTimestamp then
    reconcileMachineDelete ic im cloud
  else if !im.finalizer then
    { infraMachine := { im with finalizer := true }, cloud := cloud
      trace := [], outcome := .requeue }
  else if !m.status.bootstrapDataReady then
    { infraMachine := im, cloud := cloud, trace := [], outcome := .requeue }
  else if !ic.status.ready then
    { infraMachine := im, cloud := cloud, trace := [], outcome := .requeue }
  else if im.status.ready then
    { infraMachine := im, cloud := cloud
      trace := [Event.findInstance im.name], outcome := .done }
  else
    reconcileMachineProvision ic im cloud

/-- Modelled from the spec: the deterministic load-balancer name derived
from cluster identity (spec section 4.1). -/
def lbName (ic : InfraCluster) : String :=
  ic.name ++ "-apiserver"

/-- Modelled from the spec: one Cluster Reconciler pass (spec section
4.1), whose body is missing from the source.  On deletion: block while
any InfraMachine in the same namespace still lists this cluster, then
delete the recorded load balancer (not-found is success), then remove the
finalizer.  Otherwise: ensure the finalizer (write, then requeue), then
find-or-create the load balancer under the deterministic name, and once
it reports an external IP set the endpoint and `status.ready`. -/
def reconcileCluster (ic : InfraCluster) (machines : List InfraMachine)
    (cloud : CloudState) : ClusterReconcileResult :=
  if ic.deletionTimestamp then
    if machines.any (fun im => im.nsp == ic.nsp && im.clusterName == ic.name) then
      { infraCluster := ic, cloud := cloud, trace := [], outcome := .requeue }
    else
      let (tr1, cloud1) :=
        match ic.status.loadBalancerID with
        | some lbID => ([Event.deleteLoadBalancer lbID], (deleteLoadBalancer cloud lbID).2)
        | none => ([], cloud)
      { infraCluster := { ic with finalizer := false }
        cloud := cloud1
        trace := tr1 ++ [Event.removeFinalizer]
        outcome := .done }
  else if !ic.finalizer then
    { infraCluster := { ic with finalizer := true }, cloud := cloud
      trace := [], outcome := .requeue }
  else
    match findLoadBalancer cloud (lbName ic) with
    | none =>
        let (lb, cloud1) := createLoadBalancer cloud (lbName ic)
        { infraCluster := { ic with status := { ic.status with loadBalancerID := some lb.id } }
          cloud := cloud1
          trace := [Event.findLoadBalancer (lbName ic), Event.createLoadBalancer (lbName ic)]
          outcome := .requeue }
    | some lb =>
        match lb.ip with
        | some ip =>
            { infraCluster :=
                { ic with status :=
                    { ready := true
                      controlPlaneEndpoint := some { host := ip, port := 6443 }
                      loadBalancerID := some lb.id } }
              cloud := cloud
              trace := [Event.findLoadBalancer (lbName ic)]
              outcome := .done }
        | none =>
            { infraCluster := { ic with status := { ic.status with loadBalancerID := some lb.id } }
              cloud := cloud
              trace := [Event.findLoadBalancer (lbName ic)]
              outcome := .requeue }

/-- Per-pass context of a Machine Reconciler invocation within a history:
the owning Machine and InfraCluster as read at the start of the pass. -/
structure MachineCtx where
  machine : Machine
  infraCluster : InfraCluster
deriving DecidableEq

/-- Run a reconciliation history of the Machine Reconciler: one pass per
context, threading the InfraMachine and the cloud state, and recording
each pass's context together with its trace. -/
def runMachineHistory : List MachineCtx → InfraMachine → CloudState →
    List (MachineCtx × List Event)
  | [], _, _ => []
  | c :: rest, im, cloud =>
      let r := reconcileMachine c.machine c.infraCluster im cloud
      (c, r.trace) :: runMachineHistory rest r.infraMachine r.cloud

/-- One step of an interleaved reconciliation sequence.  Each step carries
the full object state it runs against, so a crash-and-restart that loses
a status write (but never the cloud state) is just a later step run with
stale objects. -/
inductive Step where
  | machineStep (m : Machine) (ic : InfraCluster) (im : InfraMachine)
  | clusterStep (ic : InfraCluster) (machines : List InfraMachine)
deriving DecidableEq

/-- Run an interleaved sequence of reconcile passes against the cloud
state (object state per step is arbitrary, modelling crashes and lost
status writes). -/
def runSteps : List Step → CloudState → CloudState
  | [], cloud => cloud
  | .machineStep m ic im :: rest, cloud =>
      runSteps rest (reconcileMachine m ic im cloud).cloud
  | .clusterStep ic machines :: rest, cloud =>
      runSteps rest (reconcileCluster ic machines cloud).cloud

/-- At most one cloud instance and at most one load balancer exist per
deterministic name. -/
def uniqueNames (c : CloudState) : Prop :=
  (c.droplets.map Droplet.name).Nodup ∧ (c.loadBalancers.map LoadBalancer.name).Nodup

/-- A converged (steady) Cluster Reconciler state: finalizer present, not
deleting, the load balancer exists under the deterministic name with an
external IP, and status already records its id, the endpoint and
readiness. -/
def steadyCluster (ic : InfraCluster) (cloud : CloudState)
    (lb : LoadBalancer) (ip : String) : Prop :=
  ic.deletionTimestamp = false ∧ ic.finalizer = true ∧
  findLoadBalancer cloud (lbName ic) = some lb ∧ lb.ip = some ip ∧
  ic.status = { ready := true
                controlPlaneEndpoint := some { host := ip, port := 6443 }
                loadBalancerID := some lb.id }

def wMachineStatus : MachineStatus :=
  { bootstrapDataReady := true, infrastructureReady := false, nodeRef := none }

def wSpec : InfraMachineSpec :=
  { size := "s-2vcpu-2gb", image := "ubuntu-20-04-x64", sshKeys := ["100"], additionalTags := [] }

def wLB : LoadBalancer :=
  { name := "demo-apiserver", id := 7, ip := some "10.0.0.1", members := [] }

def wIC : InfraCluster :=
  { name := "demo", nsp := "default", region := "nyc1"
    status := { ready := true
                controlPlaneEndpoint := some { host := "10.0.0.1", port := 6443 }
                loadBalancerID := some 7 }
    finalizer := true, deletionTimestamp := false }

def wM : Machine :=
  { name := "cp-1", nsp := "default", clusterName := "demo", isControlPlane := true
    status := wMachineStatus }

def wIM : InfraMachine :=
  { name := "cp-1", nsp := "default", clusterName := "demo", isControlPlane := true
    spec := wSpec
    status := { ready := false, instanceID := none, addresses := [] }
    finalizer := true, deletionTimestamp := false }

def wCloud : CloudState :=
  { droplets := [], loadBalancers := [wLB], nextID := 0 }

def wCtx : MachineCtx := { machine := wM, infraCluster := wIC }

def wCloudEmpty : CloudState := { droplets := [], loadBalancers := [], nextID := 0 }

def wICprov : InfraCluster :=
  { wIC with status := { ready := false, controlPlaneEndpoint := none, loadBalancerID := none } }

def wICfresh : InfraCluster :=
  { wICprov with finalizer := false }

def wICdel : InfraCluster := { wIC with deletionTimestamp := true }

def wIMready : InfraMachine :=
  { wIM with status := { ready := true, instanceID := some 3, addresses := ["1.2.3.4"] } }

def wIMdel : InfraMachine := { wIMready with deletionTimestamp := true }

def wDroplet : Droplet := { name := "cp-1", id := 3, running := true, publicIP := "1.2.3.4" }

def wCloudRun : CloudState := { droplets := [wDroplet], loadBalancers := [wLB], nextID := 8 }

/-- Two successive Cluster Reconciler passes on the same key with no
external state change in between. -/
def reconcileClusterTwice (ic : InfraCluster) (machines : List InfraMachine)
    (cloud : CloudState) : ClusterReconcileResult × ClusterReconcileResult :=
  let r1 := reconcileCluster ic machines cloud
  (r1, reconcileCluster r1.infraCluster machines r1.cloud)

/-- Two successive Machine Reconciler passes on the same key with no
external state change in between. -/
def reconcileMachineTwice (m : Machine) (ic : InfraCluster) (im : InfraMachine)
    (cloud : CloudState) : MachineReconcileResult × MachineReconcileResult :=
  let r1 := reconcileMachine m ic im cloud
  (r1, reconcileMachine m ic r1.infraMachine r1.cloud)

/-- A converged (steady) Machine Reconciler state: finalizer present, not
deleting, both gates satisfied, and status already `ready`. -/
def steadyMachine (m : Machine) (ic : InfraCluster) (im : InfraMachine) : Prop :=
  im.deletionTimestamp = false ∧ im.finalizer = true ∧
  m.status.bootstrapDataReady = true ∧ ic.status.ready = true ∧
  im.status.ready = true

end Model

/- Theorems -/

/-- Claim C10: for every clusterNamespace and clusterName,
`ClusterGenerator.Generate` returns a Cluster and a DOCluster with
identical namespace and name equal to the arguments, the Cluster's
infrastructure reference carries exactly the returned DOCluster's kind,
namespace and name, and the DOCluster's region is the constant "nyc1". -/
theorem clusterGenerator_generate_shape (clusterNamespace clusterName : String) :
    (ClusterGenerator.Generate clusterNamespace clusterName).1.metadata.nsp = clusterNamespace ∧
    (ClusterGenerator.Generate clusterNamespace clusterName).1.metadata.name = clusterName ∧
    (ClusterGenerator.Generate clusterNamespace clusterName).2.metadata.nsp = clusterNamespace ∧
    (ClusterGenerator.Generate clusterNamespace clusterName).2.metadata.name = clusterName ∧
    (ClusterGenerator.Generate clusterNamespace clusterName).1.spec.infrastructureRef =
      some { apiVersion := infraGroupVersion
             kind := "DOCluster"
             nsp := (ClusterGenerator.Generate clusterNamespace clusterName).2.metadata.nsp
             name := (ClusterGenerator.Generate clusterNamespace clusterName).2.metadata.name } ∧
    (ClusterGenerator.Generate clusterNamespace clusterName).2.spec.region = "nyc1" := by
  refine ⟨rfl, rfl, rfl, rfl, rfl, rfl⟩

/-- Claim C8: the bootstrap user-data configuration generated for every
machine sets, in both the init and the join node registration, the
kubelet provider-id extra arg to the template
`digitalocean://(interpolated instance id)` and the node-registration
name to the interpolated local hostname. -/
theorem machineGenerator_bootstrap_node_identity (nsp clusterName : String)
    (isControlPlane : Bool) (rand1 rand2 kv ms mi mk : String) :
    ((MachineGenerator.Generate nsp clusterName isControlPlane
        rand1 rand2 kv ms mi mk).2.1.spec.initConfiguration.map
          (fun c => c.nodeRegistration.name)) = some localHostnameTemplate ∧
    ((MachineGenerator.Generate nsp clusterName isControlPlane
        rand1 rand2 kv ms mi mk).2.1.spec.joinConfiguration.map
          (fun c => c.nodeRegistration.name)) = some localHostnameTemplate ∧
    ((MachineGenerator.Generate nsp clusterName isControlPlane
        rand1 rand2 kv ms mi mk).2.1.spec.initConfiguration.map
          (fun c => lookupLabel c.nodeRegistration.kubeletExtraArgs "provider-id")) =
      some (some providerIDTemplate) ∧
    ((MachineGenerator.Generate nsp clusterName isControlPlane
        rand1 rand2 kv ms mi mk).2.1.spec.joinConfiguration.map
          (fun c => lookupLabel c.nodeRegistration.kubeletExtraArgs "provider-id")) =
      some (some providerIDTemplate) ∧
    providerIDTemplate = "digitalocean://" ++ "\x7b\x7b ds.meta_data[\"instance_id\"] \x7d\x7d" := by
  cases isControlPlane <;>
    exact ⟨rfl, rfl, rfl, rfl, rfl⟩

/-- Claim C9: for every namespace, clusterName and isControlPlane flag
(and every draw of the generator's non-deterministic inputs), the
generated Machine, KubeadmConfig and DOMachine share one name and one
namespace; the Machine's bootstrap config reference points exactly at the
returned KubeadmConfig and its infrastructure reference exactly at the
returned DOMachine; the Machine always carries the cluster-name label
equal to clusterName and carries the control-plane label "true" exactly
when isControlPlane is true. -/
theorem machineGenerator_generate_shape (nsp clusterName : String)
    (isControlPlane : Bool) (rand1 rand2 kv ms mi mk : String) :
    (MachineGenerator.Generate nsp clusterName isControlPlane
        rand1 rand2 kv ms mi mk).1.metadata.name =
      (MachineGenerator.Generate nsp clusterName isControlPlane
        rand1 rand2 kv ms mi mk).2.1.metadata.name ∧
    (MachineGenerator.Generate nsp clusterName isControlPlane
        rand1 rand2 kv ms mi mk).1.metadata.name =
      (MachineGenerator.Generate nsp clusterName isControlPlane
        rand1 rand2 kv ms mi mk).2.2.metadata.name ∧
    (MachineGenerator.Generate nsp clusterName isControlPlane
        rand1 rand2 kv ms mi mk).1.metadata.nsp = nsp ∧
    (MachineGenerator.Generate nsp clusterName isControlPlane
        rand1 rand2 kv ms mi mk).2.1.metadata.nsp = nsp ∧
    (MachineGenerator.Generate nsp clusterName isControlPlane
        rand1 rand2 kv ms mi mk).2.2.metadata.nsp = nsp ∧
    (MachineGenerator.Generate nsp clusterName isControlPlane
        rand1 rand2 kv ms mi mk).1.spec.bootstrap.configRef =
      some { apiVersion := bootstrapGroupVersion
             kind := "KubeadmConfig"
             nsp := (MachineGenerator.Generate nsp clusterName isControlPlane
               rand1 rand2 kv ms mi mk).2.1.metadata.nsp
             name := (MachineGenerator.Generate nsp clusterName isControlPlane
               rand1 rand2 kv ms mi mk).2.1.metadata.name } ∧
    (MachineGenerator.Generate nsp clusterName isControlPlane
        rand1 rand2 kv ms mi mk).1.spec.infrastructureRef =
      { apiVersion := infraGroupVersion
        kind := "DOMachine"
        nsp := (MachineGenerator.Generate nsp clusterName isControlPlane
          rand1 rand2 kv ms mi mk).2.2.metadata.nsp
        name := (MachineGenerator.Generate nsp clusterName isControlPlane
          rand1 rand2 kv ms mi mk).2.2.metadata.name } ∧
    lookupLabel (MachineGenerator.Generate nsp clusterName isControlPlane
        rand1 rand2 kv ms mi mk).1.metadata.labels MachineClusterLabelName =
      some clusterName ∧
    lookupLabel (MachineGenerator.Generate nsp clusterName isControlPlane
        rand1 rand2 kv ms mi mk).1.metadata.labels MachineControlPlaneLabelName =
      (if isControlPlane then some "true" else none) := by
  cases isControlPlane <;>
    exact ⟨rfl, rfl, rfl, rfl, rfl, rfl, rfl, rfl, rfl⟩

namespace Model

theorem reconcileMachineDelete_trace_shape (ic : InfraCluster) (im : InfraMachine)
    (cloud : CloudState) :
    ∃ tr1 tr2, (reconcileMachineDelete ic im cloud).trace = tr1 ++ tr2 ++ [Event.removeFinalizer] ∧
      (∀ e ∈ tr1, ∃ l x, e = Event.deregisterInstance l x) ∧
      (∀ e ∈ tr2, ∃ y, e = Event.deleteInstance y) := by
  unfold reconcileMachineDelete
  rcases him : im.status.instanceID with _ | instID <;>
    cases hcp : im.isControlPlane <;>
    rcases hlb : ic.status.loadBalancerID with _ | lbID <;>
    simp [him] <;>
    first
      | exact ⟨[], [], rfl, by simp, by simp⟩
      | exact ⟨[], [Event.deleteInstance instID], rfl, by simp, by simp⟩
      | exact ⟨[Event.deregisterInstance lbID instID], [Event.deleteInstance instID], rfl, by simp, by simp⟩

end Model

namespace Model

theorem createInstance_not_in_delete_trace (ic : InfraCluster) (im : InfraMachine)
    (cloud : CloudState) (n : String) :
    Event.createInstance n ∉ (reconcileMachineDelete ic im cloud).trace := by
  intro h
  obtain ⟨tr1, tr2, heq, h1, h2⟩ := reconcileMachineDelete_trace_shape ic im cloud
  rw [heq] at h
  simp only [List.mem_append, List.mem_singleton] at h
  rcases h with (h | h) | h
  · obtain ⟨l, x, hx⟩ := h1 _ h; exact Event.noConfusion hx
  · obtain ⟨y, hy⟩ := h2 _ h; exact Event.noConfusion hy
  · exact Event.noConfusion h

theorem create_in_pass_gates (m : Machine) (ic : InfraCluster) (im : InfraMachine)
    (cloud : CloudState) (n : String)
    (h : Event.createInstance n ∈ (reconcileMachine m ic im cloud).trace) :
    m.status.bootstrapDataReady = true ∧ ic.status.ready = true := by
  unfold reconcileMachine at h
  split at h
  · exact absurd h (createInstance_not_in_delete_trace ic im cloud n)
  split at h
  · simp at h
  split at h
  · simp at h
  split at h
  · simp at h
  next hb hr =>
  constructor
  · simpa using hb
  · simpa using hr

end Model


/-- Claim C1: in every reconciliation history of the Machine Reconciler, a
CreateInstance adapter call is only observed in a pass whose owning
Machine had `status.bootstrapDataReady = true` and whose owning
InfraCluster had `status.ready = true` at that instant. -/
theorem machine_create_requires_gates (hist : List Model.MachineCtx)
    (im : Model.InfraMachine) (cloud : Model.CloudState)
    (entry : Model.MachineCtx × List Model.Event)
    (hmem : entry ∈ Model.runMachineHistory hist im cloud)
    (n : String) (hn : Model.Event.createInstance n ∈ entry.2) :
    entry.1.machine.status.bootstrapDataReady = true ∧
    entry.1.infraCluster.status.ready = true := by
  induction hist generalizing im cloud with
  | nil => simp [Model.runMachineHistory] at hmem
  | cons c rest ih =>
      simp only [Model.runMachineHistory, List.mem_cons] at hmem
      rcases hmem with rfl | hmem
      · exact Model.create_in_pass_gates c.machine c.infraCluster im cloud n hn
      · exact ih _ _ hmem

/-- Witness for C1: a concrete one-pass history in which the instance of
machine "cp-1" is created, with both gates true at that pass. -/
theorem machine_create_requires_gates_witness :
    ((Model.wCtx, [Model.Event.findInstance "cp-1", Model.Event.createInstance "cp-1"]) ∈
        Model.runMachineHistory [Model.wCtx] Model.wIM Model.wCloud ∧
      Model.Event.createInstance "cp-1" ∈
        [Model.Event.findInstance "cp-1", Model.Event.createInstance "cp-1"]) ∧
    (Model.wCtx.machine.status.bootstrapDataReady = true ∧
      Model.wCtx.infraCluster.status.ready = true) :=
  ⟨⟨by decide, by decide⟩,
    machine_create_requires_gates [Model.wCtx] Model.wIM Model.wCloud
      (Model.wCtx, [Model.Event.findInstance "cp-1", Model.Event.createInstance "cp-1"])
      (by decide) "cp-1" (by decide)⟩

namespace Model

theorem uniqueNames_mapLB (c : CloudState) (f : LoadBalancer → LoadBalancer)
    (hf : ∀ lb, (f lb).name = lb.name) (h : uniqueNames c) :
    uniqueNames { c with loadBalancers := c.loadBalancers.map f } := by
  obtain ⟨h1, h2⟩ := h
  refine ⟨h1, ?_⟩
  show ((c.loadBalancers.map f).map LoadBalancer.name).Nodup
  rw [List.map_map]
  have hmaps : c.loadBalancers.map (LoadBalancer.name ∘ f) =
      c.loadBalancers.map LoadBalancer.name :=
    List.map_congr_left (fun lb _ => hf lb)
  rw [hmaps]
  exact h2

theorem uniqueNames_deregister (c : CloudState) (l x : Nat) (h : uniqueNames c) :
    uniqueNames (deregisterFromLoadBalancer c l x) := by
  unfold deregisterFromLoadBalancer
  exact uniqueNames_mapLB c _ (fun lb => by split <;> rfl) h

theorem uniqueNames_register (c : CloudState) (l x : Nat) (h : uniqueNames c) :
    uniqueNames (registerWithLoadBalancer c l x).2 := by
  unfold registerWithLoadBalancer
  split
  · exact uniqueNames_mapLB c _ (fun lb => by split <;> rfl) h
  · exact h

theorem uniqueNames_deleteInstance (c : CloudState) (i : Nat) (h : uniqueNames c) :
    uniqueNames (deleteInstance c i).2 := by
  obtain ⟨h1, h2⟩ := h
  unfold deleteInstance
  split
  · exact ⟨h1.sublist ((List.filter_sublist _).map _), h2⟩
  · exact ⟨h1, h2⟩

theorem uniqueNames_deleteLoadBalancer (c : CloudState) (i : Nat) (h : uniqueNames c) :
    uniqueNames (deleteLoadBalancer c i).2 := by
  obtain ⟨h1, h2⟩ := h
  unfold deleteLoadBalancer
  split
  · exact ⟨h1, h2.sublist ((List.filter_sublist _).map _)⟩
  · exact ⟨h1, h2⟩

theorem uniqueNames_createInstance (c : CloudState) (n : String)
    (hfind : findInstance c n = none) (h : uniqueNames c) :
    uniqueNames (createInstance c n).2 := by
  obtain ⟨h1, h2⟩ := h
  refine ⟨?_, h2⟩
  unfold findInstance at hfind
  rw [List.find?_eq_none] at hfind
  have hn : n ∉ c.droplets.map Droplet.name := by
    simp only [List.mem_map]
    rintro ⟨d, hd, rfl⟩
    exact hfind d hd (by simp)
  show ((c.droplets ++
      [({ name := n, id := c.nextID, running := false, publicIP := "" } : Droplet)]).map
    Droplet.name).Nodup
  rw [List.map_append]
  simp [List.nodup_append, h1, hn]

theorem uniqueNames_createLoadBalancer (c : CloudState) (n : String)
    (hfind : findLoadBalancer c n = none) (h : uniqueNames c) :
    uniqueNames (createLoadBalancer c n).2 := by
  obtain ⟨h1, h2⟩ := h
  refine ⟨h1, ?_⟩
  unfold findLoadBalancer at hfind
  rw [List.find?_eq_none] at hfind
  have hn : n ∉ c.loadBalancers.map LoadBalancer.name := by
    simp only [List.mem_map]
    rintro ⟨lb, hlb, rfl⟩
    exact hfind lb hlb (by simp)
  show ((c.loadBalancers ++
      [({ name := n, id := c.nextID, ip := none, members := [] } : LoadBalancer)]).map
    LoadBalancer.name).Nodup
  rw [List.map_append]
  simp [List.nodup_append, h2, hn]

end Model

namespace Model

theorem uniqueNames_machineDelete (ic : InfraCluster) (im : InfraMachine)
    (cloud : CloudState) (h : uniqueNames cloud) :
    uniqueNames (reconcileMachineDelete ic im cloud).cloud := by
  unfold reconcileMachineDelete
  rcases him : im.status.instanceID with _ | instID <;>
    cases hcp : im.isControlPlane <;>
    rcases hlb : ic.status.loadBalancerID with _ | lbID <;>
    simp [him] <;>
    first
      | exact h
      | exact uniqueNames_deleteInstance _ _ h
      | exact uniqueNames_deleteInstance _ _ (uniqueNames_deregister _ _ _ h)

theorem uniqueNames_machinePass (m : Machine) (ic : InfraCluster) (im : InfraMachine)
    (cloud : CloudState) (h : uniqueNames cloud) :
    uniqueNames (reconcileMachine m ic im cloud).cloud := by
  unfold reconcileMachine
  split
  · exact uniqueNames_machineDelete ic im cloud h
  split
  · exact h
  split
  · exact h
  split
  · exact h
  split
  · exact h
  unfold reconcileMachineProvision
  rcases hfind : findInstance cloud im.name with _ | d
  · exact uniqueNames_createInstance _ _ hfind h
  · simp only
    split
    · exact h
    split
    · rcases ic.status.loadBalancerID with _ | lbID
      · exact h
      · simp only
        rcases hreg : (registerWithLoadBalancer cloud lbID d.id).1 with _ | _ <;>
          simp [hreg] <;>
          exact uniqueNames_register _ _ _ h
    · exact h

end Model

namespace Model

theorem uniqueNames_clusterPass (ic : InfraCluster) (machines : List InfraMachine)
    (cloud : CloudState) (h : uniqueNames cloud) :
    uniqueNames (reconcileCluster ic machines cloud).cloud := by
  unfold reconcileCluster
  split
  · split
    · exact h
    · rcases ic.status.loadBalancerID with _ | lbID
      · exact h
      · simp only
        exact uniqueNames_deleteLoadBalancer _ _ h
  split
  · exact h
  rcases hfind : findLoadBalancer cloud (lbName ic) with _ | lb
  · exact uniqueNames_createLoadBalancer _ _ hfind h
  · simp only
    rcases lb.ip with _ | ip <;> exact h

theorem uniqueNames_runSteps (steps : List Step) (cloud : CloudState)
    (h : uniqueNames cloud) : uniqueNames (runSteps steps cloud) := by
  induction steps generalizing cloud with
  | nil => exact h
  | cons s rest ih =>
      cases s with
      | machineStep m ic im =>
          exact ih _ (uniqueNames_machinePass m ic im cloud h)
      | clusterStep ic machines =>
          exact ih _ (uniqueNames_clusterPass ic machines cloud h)

end Model


namespace Model

theorem machine_trace_cases (m : Machine) (ic : InfraCluster) (im : InfraMachine)
    (cloud : CloudState) :
    (reconcileMachine m ic im cloud).trace = (reconcileMachineDelete ic im cloud).trace ∨
    (reconcileMachine m ic im cloud).trace = [] ∨
    (reconcileMachine m ic im cloud).trace = [Event.findInstance im.name] ∨
    (reconcileMachine m ic im cloud).trace = (reconcileMachineProvision ic im cloud).trace := by
  unfold reconcileMachine
  split
  · exact Or.inl rfl
  split
  · exact Or.inr (Or.inl rfl)
  split
  · exact Or.inr (Or.inl rfl)
  split
  · exact Or.inr (Or.inl rfl)
  split
  · exact Or.inr (Or.inr (Or.inl rfl))
  exact Or.inr (Or.inr (Or.inr rfl))

theorem provision_trace_cases (ic : InfraCluster) (im : InfraMachine)
    (cloud : CloudState) :
    (reconcileMachineProvision ic im cloud).trace =
        [Event.findInstance im.name, Event.createInstance im.name] ∨
    (reconcileMachineProvision ic im cloud).trace = [Event.findInstance im.name] ∨
    ∃ lbID instID, (reconcileMachineProvision ic im cloud).trace =
        [Event.findInstance im.name, Event.registerInstance lbID instID] := by
  unfold reconcileMachineProvision
  cases findInstance cloud im.name with
  | none => exact Or.inl rfl
  | some d =>
      simp only
      split
      · exact Or.inr (Or.inl rfl)
      split
      · cases ic.status.loadBalancerID with
        | none => exact Or.inr (Or.inl rfl)
        | some lbID =>
            simp only
            cases (registerWithLoadBalancer cloud lbID d.id).1 with
            | ok => exact Or.inr (Or.inr ⟨lbID, d.id, rfl⟩)
            | lbNotFound => exact Or.inr (Or.inr ⟨lbID, d.id, rfl⟩)
      · exact Or.inr (Or.inl rfl)

theorem provision_create_trace (ic : InfraCluster) (im : InfraMachine)
    (cloud : CloudState) (n : String)
    (h : Event.createInstance n ∈ (reconcileMachineProvision ic im cloud).trace) :
    (reconcileMachineProvision ic im cloud).trace =
      [Event.findInstance n, Event.createInstance n] := by
  rcases provision_trace_cases ic im cloud with heq | heq | ⟨lbID, instID, heq⟩ <;>
    rw [heq] at h ⊢
  · have : n = im.name := by
      simp only [List.mem_cons, List.mem_singleton] at h
      rcases h with h | h | h
      · exact absurd h (by simp)
      · simpa using h
      · simp at h
    subst this
    rfl
  · simp at h
  · simp at h

theorem machine_create_trace (m : Machine) (ic : InfraCluster) (im : InfraMachine)
    (cloud : CloudState) (n : String)
    (h : Event.createInstance n ∈ (reconcileMachine m ic im cloud).trace) :
    (reconcileMachine m ic im cloud).trace =
      [Event.findInstance n, Event.createInstance n] := by
  rcases machine_trace_cases m ic im cloud with heq | heq | heq | heq <;> rw [heq] at h ⊢
  · exact absurd h (createInstance_not_in_delete_trace ic im cloud n)
  · simp at h
  · simp at h
  · exact provision_create_trace ic im cloud n h

end Model

namespace Model

theorem cluster_trace_cases (ic : InfraCluster) (machines : List InfraMachine)
    (cloud : CloudState) :
    (reconcileCluster ic machines cloud).trace = [] ∨
    (∃ tr1, (reconcileCluster ic machines cloud).trace = tr1 ++ [Event.removeFinalizer] ∧
      ∀ e ∈ tr1, ∃ i, e = Event.deleteLoadBalancer i) ∨
    (reconcileCluster ic machines cloud).trace = [Event.findLoadBalancer (lbName ic)] ∨
    (reconcileCluster ic machines cloud).trace =
      [Event.findLoadBalancer (lbName ic), Event.createLoadBalancer (lbName ic)] := by
  unfold reconcileCluster
  split
  · split
    · exact Or.inl rfl
    · cases ic.status.loadBalancerID with
      | none => exact Or.inr (Or.inl ⟨[], rfl, by simp⟩)
      | some lbID =>
          exact Or.inr (Or.inl ⟨[Event.deleteLoadBalancer lbID], rfl, by simp⟩)
  split
  · exact Or.inl rfl
  cases findLoadBalancer cloud (lbName ic) with
  | none => exact Or.inr (Or.inr (Or.inr rfl))
  | some lb =>
      simp only
      cases lb.ip with
      | none => exact Or.inr (Or.inr (Or.inl rfl))
      | some ip => exact Or.inr (Or.inr (Or.inl rfl))

theorem cluster_create_trace (ic : InfraCluster) (machines : List InfraMachine)
    (cloud : CloudState) (n : String)
    (h : Event.createLoadBalancer n ∈ (reconcileCluster ic machines cloud).trace) :
    (reconcileCluster ic machines cloud).trace =
      [Event.findLoadBalancer n, Event.createLoadBalancer n] := by
  rcases cluster_trace_cases ic machines cloud with heq | ⟨tr1, heq, htr1⟩ | heq | heq <;>
    rw [heq] at h ⊢
  · simp at h
  · simp only [List.mem_append, List.mem_singleton] at h
    rcases h with h | h
    · obtain ⟨i, hi⟩ := htr1 _ h
      exact absurd hi (by simp)
    · exact absurd h (by simp)
  · simp at h
  · have : n = lbName ic := by
      simp only [List.mem_cons, List.mem_singleton] at h
      rcases h with h | h | h
      · exact absurd h (by simp)
      · simpa using h
      · simp at h
    subst this
    rfl

end Model

/-- Claim C2: across every interleaved sequence of reconcile passes —
including sequences where a crash between a create call and the status
write re-runs a pass against stale object state — at most one cloud
instance and at most one load balancer exist per deterministic name; and
in every single pass, a create call is preceded in the pass's trace by a
lookup under that same deterministic name. -/
theorem find_before_create_no_duplicates :
    (∀ (steps : List Model.Step) (cloud : Model.CloudState),
      Model.uniqueNames cloud → Model.uniqueNames (Model.runSteps steps cloud)) ∧
    (∀ (m : Model.Machine) (ic : Model.InfraCluster) (im : Model.InfraMachine)
        (cloud : Model.CloudState) (n : String),
      Model.Event.createInstance n ∈ (Model.reconcileMachine m ic im cloud).trace →
      (Model.reconcileMachine m ic im cloud).trace.get? 0 = some (Model.Event.findInstance n) ∧
      (Model.reconcileMachine m ic im cloud).trace.get? 1 = some (Model.Event.createInstance n)) ∧
    (∀ (ic : Model.InfraCluster) (machines : List Model.InfraMachine)
        (cloud : Model.CloudState) (n : String),
      Model.Event.createLoadBalancer n ∈ (Model.reconcileCluster ic machines cloud).trace →
      (Model.reconcileCluster ic machines cloud).trace.get? 0 =
        some (Model.Event.findLoadBalancer n) ∧
      (Model.reconcileCluster ic machines cloud).trace.get? 1 =
        some (Model.Event.createLoadBalancer n)) := by
  refine ⟨Model.uniqueNames_runSteps, ?_, ?_⟩
  · intro m ic im cloud n h
    rw [Model.machine_create_trace m ic im cloud n h]
    exact ⟨rfl, rfl⟩
  · intro ic machines cloud n h
    rw [Model.cluster_create_trace ic machines cloud n h]
    exact ⟨rfl, rfl⟩

/-- Witness for C2: a concrete machine pass that creates instance "cp-1"
after looking it up, and a concrete cluster pass that creates the load
balancer "demo-apiserver" after looking it up, starting from a
duplicate-free cloud. -/
theorem find_before_create_no_duplicates_witness :
    (Model.uniqueNames Model.wCloud ∧
      Model.uniqueNames
        (Model.runSteps [Model.Step.machineStep Model.wM Model.wIC Model.wIM] Model.wCloud)) ∧
    (Model.Event.createInstance "cp-1" ∈
        (Model.reconcileMachine Model.wM Model.wIC Model.wIM Model.wCloud).trace ∧
      (Model.reconcileMachine Model.wM Model.wIC Model.wIM Model.wCloud).trace.get? 0 =
        some (Model.Event.findInstance "cp-1")) ∧
    (Model.Event.createLoadBalancer "demo-apiserver" ∈
        (Model.reconcileCluster Model.wICprov [] Model.wCloudEmpty).trace ∧
      (Model.reconcileCluster Model.wICprov [] Model.wCloudEmpty).trace.get? 0 =
        some (Model.Event.findLoadBalancer "demo-apiserver")) :=
  ⟨⟨⟨by decide, by decide⟩, find_before_create_no_duplicates.1 _ _ ⟨by decide, by decide⟩⟩,
    ⟨by decide,
      (find_before_create_no_duplicates.2.1 Model.wM Model.wIC Model.wIM Model.wCloud
        "cp-1" (by decide)).1⟩,
    ⟨by decide,
      (find_before_create_no_duplicates.2.2 Model.wICprov [] Model.wCloudEmpty
        "demo-apiserver" (by decide)).1⟩⟩


/-- Claim C3: while any InfraMachine in the same namespace still lists the
InfraCluster as its cluster, a deletion pass of the Cluster Reconciler
leaves the object (its finalizer included) untouched and issues no calls;
once zero such InfraMachines remain, the pass deletes the load balancer
and only afterwards removes the finalizer. -/
theorem cluster_deletion_blocked_then_ordered
    (ic : Model.InfraCluster) (machines : List Model.InfraMachine)
    (cloud : Model.CloudState) (hdt : ic.deletionTimestamp = true) :
    ((machines.any (fun im => im.nsp == ic.nsp && im.clusterName == ic.name)) = true →
      (Model.reconcileCluster ic machines cloud).infraCluster = ic ∧
      (Model.reconcileCluster ic machines cloud).trace = []) ∧
    ((machines.any (fun im => im.nsp == ic.nsp && im.clusterName == ic.name)) = false →
      (Model.reconcileCluster ic machines cloud).infraCluster.finalizer = false ∧
      ∃ tr1, (Model.reconcileCluster ic machines cloud).trace =
          tr1 ++ [Model.Event.removeFinalizer] ∧
        (∀ e ∈ tr1, ∃ i, e = Model.Event.deleteLoadBalancer i) ∧
        (∀ lbID, ic.status.loadBalancerID = some lbID →
          tr1 = [Model.Event.deleteLoadBalancer lbID])) := by
  constructor
  · intro hany
    unfold Model.reconcileCluster
    rw [if_pos hdt, if_pos hany]
    exact ⟨rfl, rfl⟩
  · intro hany
    unfold Model.reconcileCluster
    rw [if_pos hdt, if_neg (by simp [hany])]
    cases hlb : ic.status.loadBalancerID with
    | none =>
        refine ⟨rfl, [], rfl, by simp, ?_⟩
        intro lbID hcontra
        exact absurd hcontra (by simp)
    | some lbID =>
        refine ⟨rfl, [Model.Event.deleteLoadBalancer lbID], rfl, by simp, ?_⟩
        intro lbID2 hcontra
        rw [Option.some.inj hcontra]

/-- Witness for C3: deletion of InfraCluster "demo" is a no-op while
InfraMachine "cp-1" still lists it; with no machines left, the pass
deletes load balancer 7 and then removes the finalizer. -/
theorem cluster_deletion_blocked_then_ordered_witness :
    (Model.wICdel.deletionTimestamp = true ∧
      (([Model.wIM].any (fun im => im.nsp == Model.wICdel.nsp &&
          im.clusterName == Model.wICdel.name)) = true) ∧
      ((Model.reconcileCluster Model.wICdel [Model.wIM] Model.wCloud).infraCluster =
          Model.wICdel ∧
        (Model.reconcileCluster Model.wICdel [Model.wIM] Model.wCloud).trace = [])) ∧
    ((([] : List Model.InfraMachine).any (fun im => im.nsp == Model.wICdel.nsp &&
          im.clusterName == Model.wICdel.name)) = false ∧
      ((Model.reconcileCluster Model.wICdel [] Model.wCloud).infraCluster.finalizer = false ∧
        ∃ tr1, (Model.reconcileCluster Model.wICdel [] Model.wCloud).trace =
            tr1 ++ [Model.Event.removeFinalizer] ∧
          (∀ e ∈ tr1, ∃ i, e = Model.Event.deleteLoadBalancer i) ∧
          (∀ lbID, Model.wICdel.status.loadBalancerID = some lbID →
            tr1 = [Model.Event.deleteLoadBalancer lbID]))) :=
  ⟨⟨by decide, by decide,
      (cluster_deletion_blocked_then_ordered Model.wICdel [Model.wIM] Model.wCloud
        (by decide)).1 (by decide)⟩,
    by decide,
    (cluster_deletion_blocked_then_ordered Model.wICdel [] Model.wCloud
      (by decide)).2 (by decide)⟩

/-- Claim C5: a deletion pass of the Machine Reconciler emits its actions
in the strict order deregister-from-load-balancer (control-plane members
only), then delete-instance, then remove-finalizer; the deregister and
delete calls are actually present whenever the respective ids are
recorded. -/
theorem machine_deletion_ordered (m : Model.Machine) (ic : Model.InfraCluster)
    (im : Model.InfraMachine) (cloud : Model.CloudState)
    (hdt : im.deletionTimestamp = true) :
    ∃ tr1 tr2,
      (Model.reconcileMachine m ic im cloud).trace =
        tr1 ++ tr2 ++ [Model.Event.removeFinalizer] ∧
      (∀ e ∈ tr1, ∃ l x, e = Model.Event.deregisterInstance l x) ∧
      (∀ e ∈ tr2, ∃ y, e = Model.Event.deleteInstance y) ∧
      (Model.reconcileMachine m ic im cloud).infraMachine.finalizer = false ∧
      (∀ instID, im.status.instanceID = some instID →
        tr2 = [Model.Event.deleteInstance instID]) ∧
      (∀ lbID instID, im.isControlPlane = true →
        ic.status.loadBalancerID = some lbID → im.status.instanceID = some instID →
        tr1 = [Model.Event.deregisterInstance lbID instID]) := by
  have hM : Model.reconcileMachine m ic im cloud = Model.reconcileMachineDelete ic im cloud := by
    unfold Model.reconcileMachine
    rw [if_pos hdt]
  rw [hM]
  unfold Model.reconcileMachineDelete
  cases him : im.status.instanceID with
  | none =>
      cases hcp : im.isControlPlane with
      | false =>
          refine ⟨[], [], by simp, by simp, by simp, rfl, ?_, ?_⟩
          · intro instID hc; exact absurd hc (by simp)
          · intro _ _ hc; exact absurd hc (by simp)
      | true =>
          cases hlb : ic.status.loadBalancerID with
          | none =>
              refine ⟨[], [], by simp, by simp, by simp, rfl, ?_, ?_⟩
              · intro instID hc; exact absurd hc (by simp)
              · intro _ _ _ hc hc2; exact absurd hc2 (by simp)
          | some lbID =>
              refine ⟨[], [], by simp, by simp, by simp, rfl, ?_, ?_⟩
              · intro instID hc; exact absurd hc (by simp)
              · intro _ _ _ _ hc2; exact absurd hc2 (by simp)
  | some instID =>
      cases hcp : im.isControlPlane with
      | false =>
          refine ⟨[], [Model.Event.deleteInstance instID], by simp, by simp, by simp, rfl,
            ?_, ?_⟩
          · intro instID2 hc; rw [Option.some.inj hc]
          · intro _ _ hc; exact absurd hc (by simp)
      | true =>
          cases hlb : ic.status.loadBalancerID with
          | none =>
              refine ⟨[], [Model.Event.deleteInstance instID], by simp, by simp, by simp, rfl,
                ?_, ?_⟩
              · intro instID2 hc; rw [Option.some.inj hc]
              · intro _ _ _ hc _; exact absurd hc (by simp)
          | some lbID =>
              refine ⟨[Model.Event.deregisterInstance lbID instID],
                [Model.Event.deleteInstance instID], by simp, by simp, by simp, rfl, ?_, ?_⟩
              · intro instID2 hc; rw [Option.some.inj hc]
              · intro lbID2 instID2 _ hc hc2
                rw [Option.some.inj hc, Option.some.inj hc2]

namespace Model

theorem register_ok_member (c : CloudState) (lbID x : Nat)
    (hnodup : ∀ lb ∈ c.loadBalancers, lb.members.Nodup)
    (hok : (registerWithLoadBalancer c lbID x).1 = RegisterResult.ok) :
    ∃ lb ∈ (registerWithLoadBalancer c lbID x).2.loadBalancers,
      lb.id = lbID ∧ lb.members.count x = 1 := by
  unfold registerWithLoadBalancer at hok ⊢
  by_cases hany : (c.loadBalancers.any fun lb => lb.id == lbID) = true
  · rw [if_pos hany] at hok ⊢
    rw [List.any_eq_true] at hany
    obtain ⟨lb0, hmem, hid⟩ := hany
    refine ⟨{ lb0 with members :=
        if x ∈ lb0.members then lb0.members else lb0.members ++ [x] }, ?_, ?_, ?_⟩
    · have hfn : (fun lb => if (lb.id == lbID) = true then
          { lb with members := if x ∈ lb.members then lb.members else lb.members ++ [x] }
          else lb) lb0 =
        { lb0 with members := if x ∈ lb0.members then lb0.members else lb0.members ++ [x] } := by
        simp only [hid, if_true]
      exact hfn ▸ List.mem_map_of_mem _ hmem
    · simpa using hid
    · show (if x ∈ lb0.members then lb0.members else lb0.members ++ [x]).count x = 1
      split
      · next hxm => exact List.count_eq_one_of_mem (hnodup lb0 hmem) hxm
      · next hxm =>
        rw [List.count_append]
        rw [List.count_eq_zero.mpr hxm]
        simp
  · rw [if_neg hany] at hok
    exact absurd hok (by simp)

end Model

namespace Model

theorem machine_pass_cases (m : Machine) (ic : InfraCluster) (im : InfraMachine)
    (cloud : CloudState) :
    (im.deletionTimestamp = true ∧
      reconcileMachine m ic im cloud = reconcileMachineDelete ic im cloud) ∨
    ((reconcileMachine m ic im cloud).trace = [] ∧
      (reconcileMachine m ic im cloud).cloud = cloud ∧
      (reconcileMachine m ic im cloud).infraMachine.status = im.status) ∨
    (im.status.ready = true ∧
      (reconcileMachine m ic im cloud).trace = [Event.findInstance im.name] ∧
      (reconcileMachine m ic im cloud).cloud = cloud ∧
      (reconcileMachine m ic im cloud).infraMachine = im) ∨
    (im.deletionTimestamp = false ∧ im.status.ready = false ∧
      m.status.bootstrapDataReady = true ∧ ic.status.ready = true ∧
      reconcileMachine m ic im cloud = reconcileMachineProvision ic im cloud) := by
  unfold reconcileMachine
  split
  · next h => exact Or.inl ⟨h, rfl⟩
  next hdt =>
  split
  · exact Or.inr (Or.inl ⟨rfl, rfl, rfl⟩)
  next hfin =>
  split
  · exact Or.inr (Or.inl ⟨rfl, rfl, rfl⟩)
  next hboot =>
  split
  · exact Or.inr (Or.inl ⟨rfl, rfl, rfl⟩)
  next hready =>
  split
  · next h => exact Or.inr (Or.inr (Or.inl ⟨h, rfl, rfl, rfl⟩))
  · next h =>
    refine Or.inr (Or.inr (Or.inr ⟨?_, ?_, ?_, ?_, rfl⟩))
    · simpa using hdt
    · simpa using h
    · simpa using hboot
    · simpa using hready

theorem register_not_in_delete_trace (ic : InfraCluster) (im : InfraMachine)
    (cloud : CloudState) (l x : Nat) :
    Event.registerInstance l x ∉ (reconcileMachineDelete ic im cloud).trace := by
  intro h
  obtain ⟨tr1, tr2, heq, h1, h2⟩ := reconcileMachineDelete_trace_shape ic im cloud
  rw [heq] at h
  simp only [List.mem_append, List.mem_singleton] at h
  rcases h with (h | h) | h
  · obtain ⟨l2, x2, hx⟩ := h1 _ h; exact Event.noConfusion hx
  · obtain ⟨y, hy⟩ := h2 _ h; exact Event.noConfusion hy
  · exact Event.noConfusion h

theorem provision_register_facts (ic : InfraCluster) (im : InfraMachine)
    (cloud : CloudState) (l x : Nat)
    (h : Event.registerInstance l x ∈ (reconcileMachineProvision ic im cloud).trace) :
    ∃ d, findInstance cloud im.name = some d ∧ d.running = true ∧ d.id = x ∧
      ic.status.loadBalancerID = some l := by
  unfold reconcileMachineProvision at h
  cases hfind : findInstance cloud im.name with
  | none =>
      rw [hfind] at h
      simp at h
  | some d =>
      rw [hfind] at h
      simp only at h
      split at h
      · simp at h
      next hrun =>
      split at h
      · cases hlb : ic.status.loadBalancerID with
        | none => rw [hlb] at h; simp at h
        | some lbID =>
            rw [hlb] at h
            simp only at h
            have hlx : l = lbID ∧ x = d.id := by
              rcases hr : (registerWithLoadBalancer cloud lbID d.id).1 with _ | _ <;>
                rw [hr] at h <;>
                simpa using h
            exact ⟨d, rfl, by simpa using hrun, hlx.2.symm, by rw [hlx.1]⟩
      · simp at h

end Model

namespace Model

theorem provision_ready_facts (ic : InfraCluster) (im : InfraMachine)
    (cloud : CloudState)
    (hnodup : ∀ lb ∈ cloud.loadBalancers, lb.members.Nodup)
    (hcp : im.isControlPlane = true)
    (himready : im.status.ready = false)
    (hready : (reconcileMachineProvision ic im cloud).infraMachine.status.ready = true) :
    ∃ lbID d, ic.status.loadBalancerID = some lbID ∧
      findInstance cloud im.name = some d ∧ d.running = true ∧
      Event.registerInstance lbID d.id ∈ (reconcileMachineProvision ic im cloud).trace ∧
      (∃ lb ∈ (reconcileMachineProvision ic im cloud).cloud.loadBalancers,
        lb.id = lbID ∧ lb.members.count d.id = 1) ∧
      (reconcileMachineProvision ic im cloud).infraMachine.status.addresses = [d.publicIP] := by
  unfold reconcileMachineProvision at hready ⊢
  cases hfind : findInstance cloud im.name with
  | none =>
      rw [hfind] at hready
      exact absurd (himready ▸ hready) (by simp)
  | some d =>
      rw [hfind] at hready
      simp only at hready ⊢
      by_cases hrun : (!d.running) = true
      · rw [if_pos hrun] at hready
        exact absurd (himready ▸ hready) (by simp)
      · rw [if_neg hrun] at hready ⊢
        rw [if_pos hcp] at hready ⊢
        cases hlb : ic.status.loadBalancerID with
        | none =>
            rw [hlb] at hready
            exact absurd (himready ▸ hready) (by simp)
        | some lbID =>
            rw [hlb] at hready
            simp only at hready ⊢
            cases hreg : (registerWithLoadBalancer cloud lbID d.id).1 with
            | lbNotFound =>
                rw [hreg] at hready
                simp [himready] at hready
            | ok =>
                refine ⟨lbID, d, rfl, rfl, by simpa using hrun, by simp, ?_, rfl⟩
                exact register_ok_member cloud lbID d.id hnodup hreg

end Model

namespace Model

theorem reconcileMachineDelete_infraMachine (ic : InfraCluster) (im : InfraMachine)
    (cloud : CloudState) :
    (reconcileMachineDelete ic im cloud).infraMachine = { im with finalizer := false } := by
  unfold reconcileMachineDelete
  rcases im.status.instanceID with _ | instID <;>
    cases im.isControlPlane <;>
    rcases ic.status.loadBalancerID with _ | lbID <;>
    rfl

end Model

/-- Claim C4: a register call of the Machine Reconciler for a
control-plane InfraMachine is only ever issued while the found instance
is in the Running state and the machine is not yet ready; and when a pass
turns `status.ready` from false to true, a registration with the
cluster's load balancer happened in that pass, the registered instance
appears exactly once in that load balancer's member set afterwards, and
`status.addresses` is populated in the same pass. -/
theorem controlplane_registration_exactly_once
    (m : Model.Machine) (ic : Model.InfraCluster) (im : Model.InfraMachine)
    (cloud : Model.CloudState)
    (hnodup : ∀ lb ∈ cloud.loadBalancers, lb.members.Nodup)
    (hcp : im.isControlPlane = true) :
    (∀ l x, Model.Event.registerInstance l x ∈ (Model.reconcileMachine m ic im cloud).trace →
      im.status.ready = false ∧
      ∃ d, Model.findInstance cloud im.name = some d ∧ d.running = true ∧ d.id = x ∧
        ic.status.loadBalancerID = some l) ∧
    (im.status.ready = false →
      (Model.reconcileMachine m ic im cloud).infraMachine.status.ready = true →
      ∃ lbID d, ic.status.loadBalancerID = some lbID ∧
        Model.findInstance cloud im.name = some d ∧ d.running = true ∧
        Model.Event.registerInstance lbID d.id ∈
          (Model.reconcileMachine m ic im cloud).trace ∧
        (∃ lb ∈ (Model.reconcileMachine m ic im cloud).cloud.loadBalancers,
          lb.id = lbID ∧ lb.members.count d.id = 1) ∧
        (Model.reconcileMachine m ic im cloud).infraMachine.status.addresses =
          [d.publicIP]) := by
  constructor
  · intro l x h
    rcases Model.machine_pass_cases m ic im cloud with
      ⟨hdt, heq⟩ | ⟨htr, _, _⟩ | ⟨hr, htr, _, _⟩ | ⟨hdt, hready, hboot, hicr, heq⟩
    · rw [heq] at h
      exact absurd h (Model.register_not_in_delete_trace ic im cloud l x)
    · rw [htr] at h
      simp at h
    · rw [htr] at h
      simp at h
    · rw [heq] at h
      exact ⟨hready, Model.provision_register_facts ic im cloud l x h⟩
  · intro h0 h1
    rcases Model.machine_pass_cases m ic im cloud with
      ⟨hdt, heq⟩ | ⟨_, _, hstat⟩ | ⟨hr, _, _, _⟩ | ⟨hdt, hready, hboot, hicr, heq⟩
    · rw [heq, Model.reconcileMachineDelete_infraMachine] at h1
      simp only at h1
      rw [h0] at h1
      exact absurd h1 (by simp)
    · rw [hstat] at h1
      rw [h0] at h1
      exact absurd h1 (by simp)
    · rw [h0] at hr
      exact absurd hr (by simp)
    · rw [heq]
      exact Model.provision_ready_facts ic im cloud hnodup hcp h0 (heq ▸ h1)


/-- Witness for C4: the control-plane machine "cp-1", found running as
droplet 3, is registered with load balancer 7 in the very pass that sets
`status.ready`, and appears exactly once in the member set afterwards. -/
theorem controlplane_registration_exactly_once_witness :
    ((∀ lb ∈ Model.wCloudRun.loadBalancers, lb.members.Nodup) ∧
      Model.wIM.isControlPlane = true ∧
      Model.Event.registerInstance 7 3 ∈
        (Model.reconcileMachine Model.wM Model.wIC Model.wIM Model.wCloudRun).trace ∧
      Model.wIM.status.ready = false ∧
      (Model.reconcileMachine Model.wM Model.wIC Model.wIM
        Model.wCloudRun).infraMachine.status.ready = true) ∧
    (Model.wIM.status.ready = false ∧
      ∃ d, Model.findInstance Model.wCloudRun Model.wIM.name = some d ∧
        d.running = true ∧ d.id = 3 ∧ Model.wIC.status.loadBalancerID = some 7) ∧
    (∃ lbID d, Model.wIC.status.loadBalancerID = some lbID ∧
      Model.findInstance Model.wCloudRun Model.wIM.name = some d ∧ d.running = true ∧
      Model.Event.registerInstance lbID d.id ∈
        (Model.reconcileMachine Model.wM Model.wIC Model.wIM Model.wCloudRun).trace ∧
      (∃ lb ∈ (Model.reconcileMachine Model.wM Model.wIC Model.wIM
          Model.wCloudRun).cloud.loadBalancers,
        lb.id = lbID ∧ lb.members.count d.id = 1) ∧
      (Model.reconcileMachine Model.wM Model.wIC Model.wIM
        Model.wCloudRun).infraMachine.status.addresses = [d.publicIP]) :=
  ⟨⟨by decide, by decide, by decide, by decide, by decide⟩,
    (controlplane_registration_exactly_once Model.wM Model.wIC Model.wIM Model.wCloudRun
      (by decide) (by decide)).1 7 3 (by decide),
    (controlplane_registration_exactly_once Model.wM Model.wIC Model.wIM Model.wCloudRun
      (by decide) (by decide)).2 (by decide) (by decide)⟩

/-- Witness for C5: deleting the control-plane machine "cp-1" (instance 3,
load balancer 7) deregisters, then deletes the instance, then removes the
finalizer. -/
theorem machine_deletion_ordered_witness :
    Model.wIMdel.deletionTimestamp = true ∧
    ∃ tr1 tr2,
      (Model.reconcileMachine Model.wM Model.wIC Model.wIMdel Model.wCloudRun).trace =
        tr1 ++ tr2 ++ [Model.Event.removeFinalizer] ∧
      (∀ e ∈ tr1, ∃ l x, e = Model.Event.deregisterInstance l x) ∧
      (∀ e ∈ tr2, ∃ y, e = Model.Event.deleteInstance y) ∧
      (Model.reconcileMachine Model.wM Model.wIC Model.wIMdel
        Model.wCloudRun).infraMachine.finalizer = false ∧
      (∀ instID, Model.wIMdel.status.instanceID = some instID →
        tr2 = [Model.Event.deleteInstance instID]) ∧
      (∀ lbID instID, Model.wIMdel.isControlPlane = true →
        Model.wIC.status.loadBalancerID = some lbID →
        Model.wIMdel.status.instanceID = some instID →
        tr1 = [Model.Event.deregisterInstance lbID instID]) :=
  ⟨by decide,
    machine_deletion_ordered Model.wM Model.wIC Model.wIMdel Model.wCloudRun (by decide)⟩


/-- Counterexample to C6 as stated: from a freshly created InfraCluster
(no finalizer yet, empty cloud), the first pass only writes the finalizer
and the second pass — with no external state change in between — creates
the load balancer: a cloud API call beyond lookups, and a status change. -/
theorem reconcile_twice_counterexample :
    ¬ (((Model.reconcileClusterTwice Model.wICfresh [] Model.wCloudEmpty).2.trace.all
          Model.Event.isLookup) = true ∧
       (Model.reconcileClusterTwice Model.wICfresh [] Model.wCloudEmpty).2.infraCluster.status =
         (Model.reconcileClusterTwice Model.wICfresh [] Model.wCloudEmpty).1.infraCluster.status) := by
  decide

/-- Amended C6: once reconciliation has converged — the cluster's load
balancer exists under the deterministic name with its IP recorded in a
ready status, and the machine is ready behind passing gates — a further
Reconcile invocation performs only lookups and leaves the object, its
status and the cloud state unchanged; hence a second invocation with no
external state change in between behaves identically to the first. -/
theorem reconcile_steady_state_idempotent
    (ic : Model.InfraCluster) (machines : List Model.InfraMachine)
    (cloud : Model.CloudState) (lb : Model.LoadBalancer) (ip : String)
    (m : Model.Machine) (ic2 : Model.InfraCluster) (im : Model.InfraMachine)
    (cloud2 : Model.CloudState)
    (hc : Model.steadyCluster ic cloud lb ip)
    (hm : Model.steadyMachine m ic2 im) :
    ((Model.reconcileCluster ic machines cloud).infraCluster = ic ∧
      (Model.reconcileCluster ic machines cloud).cloud = cloud ∧
      (Model.reconcileCluster ic machines cloud).trace.all Model.Event.isLookup = true) ∧
    ((Model.reconcileMachine m ic2 im cloud2).infraMachine = im ∧
      (Model.reconcileMachine m ic2 im cloud2).cloud = cloud2 ∧
      (Model.reconcileMachine m ic2 im cloud2).trace.all Model.Event.isLookup = true) ∧
    ((Model.reconcileClusterTwice ic machines cloud).2.trace.all Model.Event.isLookup = true ∧
      (Model.reconcileClusterTwice ic machines cloud).2.infraCluster.status =
        (Model.reconcileClusterTwice ic machines cloud).1.infraCluster.status) ∧
    ((Model.reconcileMachineTwice m ic2 im cloud2).2.trace.all Model.Event.isLookup = true ∧
      (Model.reconcileMachineTwice m ic2 im cloud2).2.infraMachine.status =
        (Model.reconcileMachineTwice m ic2 im cloud2).1.infraMachine.status) := by
  obtain ⟨hdt, hfin, hfindlb, hip, hstat⟩ := hc
  obtain ⟨hdt2, hfin2, hboot, hicr, hready⟩ := hm
  have hcluster : (Model.reconcileCluster ic machines cloud).infraCluster = ic ∧
      (Model.reconcileCluster ic machines cloud).cloud = cloud ∧
      (Model.reconcileCluster ic machines cloud).trace.all Model.Event.isLookup = true := by
    unfold Model.reconcileCluster
    rw [if_neg (by simp [hdt]), if_neg (by simp [hfin]), hfindlb]
    simp only
    rw [hip]
    refine ⟨?_, rfl, rfl⟩
    cases ic with
    | mk name nsp region status finalizer deletionTimestamp =>
        simp only at hstat
        simp [hstat]
  have hmachine : (Model.reconcileMachine m ic2 im cloud2).infraMachine = im ∧
      (Model.reconcileMachine m ic2 im cloud2).cloud = cloud2 ∧
      (Model.reconcileMachine m ic2 im cloud2).trace.all Model.Event.isLookup = true := by
    unfold Model.reconcileMachine
    rw [if_neg (by simp [hdt2]), if_neg (by simp [hfin2]), if_neg (by simp [hboot]),
      if_neg (by simp [hicr]), if_pos hready]
    exact ⟨rfl, rfl, rfl⟩
  refine ⟨hcluster, hmachine, ⟨?_, ?_⟩, ⟨?_, ?_⟩⟩
  · show (Model.reconcileCluster (Model.reconcileCluster ic machines cloud).infraCluster
      machines (Model.reconcileCluster ic machines cloud).cloud).trace.all
        Model.Event.isLookup = true
    rw [hcluster.1, hcluster.2.1]
    exact hcluster.2.2
  · show (Model.reconcileCluster (Model.reconcileCluster ic machines cloud).infraCluster
      machines (Model.reconcileCluster ic machines cloud).cloud).infraCluster.status =
        (Model.reconcileCluster ic machines cloud).infraCluster.status
    rw [hcluster.1, hcluster.2.1, hcluster.1]
  · show (Model.reconcileMachine m ic2 (Model.reconcileMachine m ic2 im cloud2).infraMachine
      (Model.reconcileMachine m ic2 im cloud2).cloud).trace.all Model.Event.isLookup = true
    rw [hmachine.1, hmachine.2.1]
    exact hmachine.2.2
  · show (Model.reconcileMachine m ic2 (Model.reconcileMachine m ic2 im cloud2).infraMachine
      (Model.reconcileMachine m ic2 im cloud2).cloud).infraMachine.status =
        (Model.reconcileMachine m ic2 im cloud2).infraMachine.status
    rw [hmachine.1, hmachine.2.1, hmachine.1]

/-- Witness for amended C6: the steady cluster "demo" (load balancer 7
with IP recorded) and the steady ready machine "cp-1": further passes are
lookup-only and change nothing. -/
theorem reconcile_steady_state_idempotent_witness :
    (Model.steadyCluster Model.wIC Model.wCloud Model.wLB "10.0.0.1" ∧
      Model.steadyMachine Model.wM Model.wIC Model.wIMready) ∧
    (((Model.reconcileCluster Model.wIC [] Model.wCloud).infraCluster = Model.wIC ∧
      (Model.reconcileCluster Model.wIC [] Model.wCloud).cloud = Model.wCloud ∧
      (Model.reconcileCluster Model.wIC [] Model.wCloud).trace.all
        Model.Event.isLookup = true) ∧
    ((Model.reconcileMachine Model.wM Model.wIC Model.wIMready
        Model.wCloudRun).infraMachine = Model.wIMready ∧
      (Model.reconcileMachine Model.wM Model.wIC Model.wIMready
        Model.wCloudRun).cloud = Model.wCloudRun ∧
      (Model.reconcileMachine Model.wM Model.wIC Model.wIMready
        Model.wCloudRun).trace.all Model.Event.isLookup = true) ∧
    ((Model.reconcileClusterTwice Model.wIC [] Model.wCloud).2.trace.all
        Model.Event.isLookup = true ∧
      (Model.reconcileClusterTwice Model.wIC [] Model.wCloud).2.infraCluster.status =
        (Model.reconcileClusterTwice Model.wIC [] Model.wCloud).1.infraCluster.status) ∧
    ((Model.reconcileMachineTwice Model.wM Model.wIC Model.wIMready
        Model.wCloudRun).2.trace.all Model.Event.isLookup = true ∧
      (Model.reconcileMachineTwice Model.wM Model.wIC Model.wIMready
        Model.wCloudRun).2.infraMachine.status =
        (Model.reconcileMachineTwice Model.wM Model.wIC Model.wIMready
          Model.wCloudRun).1.infraMachine.status)) :=
  ⟨⟨⟨by decide, by decide, by decide, by decide, by decide⟩,
    ⟨by decide, by decide, by decide, by decide, by decide⟩⟩,
    reconcile_steady_state_idempotent Model.wIC [] Model.wCloud Model.wLB "10.0.0.1"
      Model.wM Model.wIC Model.wIMready Model.wCloudRun
      ⟨by decide, by decide, by decide, by decide, by decide⟩
      ⟨by decide, by decide, by decide, by decide, by decide⟩⟩

namespace Model

theorem deleteInstance_notFound (c : CloudState) (i : Nat)
    (h : (c.droplets.any (fun d => d.id == i)) = false) :
    deleteInstance c i = (DeleteResult.notFound, c) := by
  unfold deleteInstance
  rw [if_neg (by simp [h])]

theorem deleteLoadBalancer_notFound (c : CloudState) (i : Nat)
    (h : (c.loadBalancers.any (fun lb => lb.id == i)) = false) :
    deleteLoadBalancer c i = (DeleteResult.notFound, c) := by
  unfold deleteLoadBalancer
  rw [if_neg (by simp [h])]

theorem deregister_droplets (c : CloudState) (l x : Nat) :
    (deregisterFromLoadBalancer c l x).droplets = c.droplets := rfl

theorem reconcileMachineDelete_outcome (ic : InfraCluster) (im : InfraMachine)
    (cloud : CloudState) :
    (reconcileMachineDelete ic im cloud).outcome = Outcome.done := by
  unfold reconcileMachineDelete
  rcases im.status.instanceID with _ | instID <;>
    cases im.isControlPlane <;>
    rcases ic.status.loadBalancerID with _ | lbID <;>
    rfl

theorem reconcileMachineDelete_removeFinalizer (ic : InfraCluster) (im : InfraMachine)
    (cloud : CloudState) :
    Event.removeFinalizer ∈ (reconcileMachineDelete ic im cloud).trace := by
  obtain ⟨tr1, tr2, heq, _, _⟩ := reconcileMachineDelete_trace_shape ic im cloud
  rw [heq]
  simp

theorem reconcileMachineDelete_droplets_gone (ic : InfraCluster) (im : InfraMachine)
    (cloud : CloudState) (instID : Nat)
    (hinst : im.status.instanceID = some instID)
    (hgone : (cloud.droplets.any (fun d => d.id == instID)) = false) :
    (reconcileMachineDelete ic im cloud).cloud.droplets = cloud.droplets := by
  unfold reconcileMachineDelete
  rw [hinst]
  cases hcp : im.isControlPlane with
  | false =>
      rcases hlb : ic.status.loadBalancerID with _ | lbID <;>
        simp only <;> rw [deleteInstance_notFound _ _ hgone]
  | true =>
      rcases hlb : ic.status.loadBalancerID with _ | lbID
      · simp only
        rw [deleteInstance_notFound _ _ hgone]
      · simp only
        rw [deleteInstance_notFound (deregisterFromLoadBalancer cloud lbID instID) instID
          (by rw [deregister_droplets]; exact hgone)]
        exact deregister_droplets cloud lbID instID

end Model

/-- Claim C7: a not-found result on any delete issued during deletion —
the recorded instance already gone, the recorded load balancer already
gone, a deregistration against a vanished load balancer — is treated as
success: the pass completes with outcome done, still removes the
finalizer, and leaves the cloud state untouched. -/
theorem notfound_on_delete_is_success
    (m : Model.Machine) (ic : Model.InfraCluster) (im : Model.InfraMachine)
    (cloud : Model.CloudState) (instID : Nat)
    (ic2 : Model.InfraCluster) (machines : List Model.InfraMachine)
    (cloud2 : Model.CloudState) (lbID : Nat)
    (hdt : im.deletionTimestamp = true)
    (hinst : im.status.instanceID = some instID)
    (hgone : (cloud.droplets.any (fun d => d.id == instID)) = false)
    (hdt2 : ic2.deletionTimestamp = true)
    (hnoref : (machines.any (fun im2 => im2.nsp == ic2.nsp &&
      im2.clusterName == ic2.name)) = false)
    (hlb : ic2.status.loadBalancerID = some lbID)
    (hlbgone : (cloud2.loadBalancers.any (fun lb => lb.id == lbID)) = false) :
    ((Model.reconcileMachine m ic im cloud).outcome = Model.Outcome.done ∧
      (Model.reconcileMachine m ic im cloud).infraMachine.finalizer = false ∧
      Model.Event.removeFinalizer ∈ (Model.reconcileMachine m ic im cloud).trace ∧
      (Model.reconcileMachine m ic im cloud).cloud.droplets = cloud.droplets) ∧
    ((Model.reconcileCluster ic2 machines cloud2).outcome = Model.Outcome.done ∧
      (Model.reconcileCluster ic2 machines cloud2).infraCluster.finalizer = false ∧
      Model.Event.removeFinalizer ∈ (Model.reconcileCluster ic2 machines cloud2).trace ∧
      (Model.reconcileCluster ic2 machines cloud2).cloud = cloud2) := by
  have hM : Model.reconcileMachine m ic im cloud = Model.reconcileMachineDelete ic im cloud := by
    unfold Model.reconcileMachine
    rw [if_pos hdt]
  constructor
  · rw [hM]
    refine ⟨Model.reconcileMachineDelete_outcome ic im cloud, ?_, 
      Model.reconcileMachineDelete_removeFinalizer ic im cloud,
      Model.reconcileMachineDelete_droplets_gone ic im cloud instID hinst hgone⟩
    rw [Model.reconcileMachineDelete_infraMachine]
  · unfold Model.reconcileCluster
    rw [if_pos hdt2, if_neg (by simp [hnoref]), hlb]
    simp only
    rw [Model.deleteLoadBalancer_notFound cloud2 lbID hlbgone]
    refine ⟨?_, ?_, ?_, ?_⟩ <;> simp

/-- Witness for C7: deleting machine "cp-1" whose recorded instance 3 no
longer exists, and InfraCluster "demo" whose recorded load balancer 7 no
longer exists, both complete and remove their finalizers. -/
theorem notfound_on_delete_is_success_witness :
    (Model.wIMdel.deletionTimestamp = true ∧
      Model.wIMdel.status.instanceID = some 3 ∧
      (Model.wCloud.droplets.any (fun d => d.id == 3)) = false ∧
      Model.wICdel.deletionTimestamp = true ∧
      (([] : List Model.InfraMachine).any (fun im2 => im2.nsp == Model.wICdel.nsp &&
        im2.clusterName == Model.wICdel.name)) = false ∧
      Model.wICdel.status.loadBalancerID = some 7 ∧
      (Model.wCloudEmpty.loadBalancers.any (fun lb => lb.id == 7)) = false) ∧
    (((Model.reconcileMachine Model.wM Model.wIC Model.wIMdel Model.wCloud).outcome =
        Model.Outcome.done ∧
      (Model.reconcileMachine Model.wM Model.wIC Model.wIMdel
        Model.wCloud).infraMachine.finalizer = false ∧
      Model.Event.removeFinalizer ∈
        (Model.reconcileMachine Model.wM Model.wIC Model.wIMdel Model.wCloud).trace ∧
      (Model.reconcileMachine Model.wM Model.wIC Model.wIMdel Model.wCloud).cloud.droplets =
        Model.wCloud.droplets) ∧
    ((Model.reconcileCluster Model.wICdel [] Model.wCloudEmpty).outcome =
        Model.Outcome.done ∧
      (Model.reconcileCluster Model.wICdel [] Model.wCloudEmpty).infraCluster.finalizer =
        false ∧
      Model.Event.removeFinalizer ∈
        (Model.reconcileCluster Model.wICdel [] Model.wCloudEmpty).trace ∧
      (Model.reconcileCluster Model.wICdel [] Model.wCloudEmpty).cloud =
        Model.wCloudEmpty)) :=
  ⟨⟨by decide, by decide, by decide, by decide, by decide, by decide, by decide⟩,
    notfound_on_delete_is_success Model.wM Model.wIC Model.wIMdel Model.wCloud 3
      Model.wICdel [] Model.wCloudEmpty 7
      (by decide) (by decide) (by decide) (by decide) (by decide) (by decide) (by decide)⟩
